import Mathlib

/-!
Verification of the `owned_ref_cell` library (`src/lib.rs`).

The library is a single-threaded interior-mutability cell. Its runtime data
is a `BorrowState { is_writing: bool, reading_count: usize }` shared (via
`Rc<RefCell<..>>`) between the cell and every outstanding guard, plus the
protected value stored in an `UnsafeCell<T>` owned by the cell.

Shallow embedding conventions:
* `BorrowState` and the cell are plain records; the `Rc<RefCell<..>>`
  indirection collapses, so the cell record IS the shared mutable store.
* A guard (`OwnedRef` / `OwnedRefMut`) holds a raw pointer into the cell`s
  value and a handle to the same `BorrowState`; both alias the cell, so in
  the embedding a guard is a bare token and its `deref` / `drop` act on the
  current cell record, exactly as the pointer dereference and the
  `Drop` impls act on the shared store in the source.
* `usize` is modelled as `Nat`; `reading_count -= 1` in `Drop for OwnedRef`
  is `Nat` subtraction (the source would panic or wrap below zero; the
  reachability results show that point is never hit).
* `expect`-panics in `borrow` / `borrow_mut` are modelled with
  `Except String`, carrying the exact panic message.
-/

/-- `struct BorrowState { is_writing: bool, reading_count: usize }`. -/
structure BorrowState where
  is_writing : Bool
  reading_count : Nat
  deriving DecidableEq, Repr

/-- `pub struct OwnedRefCell<T> { value: UnsafeCell<T>, state: Rc<RefCell<BorrowState>> }`.
The `Rc<RefCell<..>>` collapses: this record is the shared mutable store. -/
structure OwnedRefCell (α : Type) where
  value : α
  state : BorrowState
  deriving DecidableEq, Repr

/-- `pub struct OwnedRef<T> { value: *const T, state: Rc<RefCell<BorrowState>> }`.
Both fields alias the owning cell, so the guard carries no separate data
in the embedding: it is a token witnessing one read claim. -/
structure OwnedRef (α : Type) where
  deriving DecidableEq, Repr

/-- `pub struct OwnedRefMut<T> { value: *mut T, state: Rc<RefCell<BorrowState>> }`.
Token witnessing the single write claim. -/
structure OwnedRefMut (α : Type) where
  deriving DecidableEq, Repr

/-- `OwnedRefCell::new`: initial state `{ is_writing: false, reading_count: 0 }`. -/
def OwnedRefCell.new {α : Type} (value : α) : OwnedRefCell α :=
  ⟨value, ⟨false, 0⟩⟩

/-- `OwnedRefCell::try_borrow`: if `state.is_writing` return `None` (no
mutation); else `state.reading_count += 1` and return a guard whose pointer
and state handle alias the cell. Returns the issued guard (if any) together
with the cell store after the call. -/
def OwnedRefCell.try_borrow {α : Type} (c : OwnedRefCell α) :
    Option (OwnedRef α) × OwnedRefCell α :=
  if c.state.is_writing then
    (none, c)
  else
    (some ⟨⟩, { c with state := { c.state with reading_count := c.state.reading_count + 1 } })

/-- `OwnedRefCell::try_borrow_mut`: if `state.is_writing || state.reading_count > 0`
return `None` (no mutation); else `state.is_writing = true` and return a guard. -/
def OwnedRefCell.try_borrow_mut {α : Type} (c : OwnedRefCell α) :
    Option (OwnedRefMut α) × OwnedRefCell α :=
  if c.state.is_writing || decide (0 < c.state.reading_count) then
    (none, c)
  else
    (some ⟨⟩, { c with state := { c.state with is_writing := true } })

/-- `OwnedRefCell::borrow`: `self.try_borrow().expect("Failed to borrow: already mutably borrowed")`.
The panic is modelled as `Except.error` carrying the exact panic message. -/
def OwnedRefCell.borrow {α : Type} (c : OwnedRefCell α) :
    Except String (OwnedRef α × OwnedRefCell α) :=
  match c.try_borrow with
  | (some g, c2) => Except.ok (g, c2)
  | (none, _) => Except.error "Failed to borrow: already mutably borrowed"

/-- `OwnedRefCell::borrow_mut`: `self.try_borrow_mut().expect("Failed to borrow mutably: already borrowed")`. -/
def OwnedRefCell.borrow_mut {α : Type} (c : OwnedRefCell α) :
    Except String (OwnedRefMut α × OwnedRefCell α) :=
  match c.try_borrow_mut with
  | (some g, c2) => Except.ok (g, c2)
  | (none, _) => Except.error "Failed to borrow mutably: already borrowed"

/-- `impl Deref for OwnedRef`: the guard`s raw pointer targets the cell`s
value, so dereferencing reads the cell`s current value. -/
def OwnedRef.deref {α : Type} (_g : OwnedRef α) (c : OwnedRefCell α) : α :=
  c.value

/-- `impl Deref for OwnedRefMut`: reads the cell`s current value. -/
def OwnedRefMut.deref {α : Type} (_g : OwnedRefMut α) (c : OwnedRefCell α) : α :=
  c.value

/-- `impl DerefMut for OwnedRefMut`: a write through the returned `&mut T`
stores `v` into the cell`s value. -/
def OwnedRefMut.deref_mut {α : Type} (_g : OwnedRefMut α) (c : OwnedRefCell α) (v : α) :
    OwnedRefCell α :=
  { c with value := v }

/-- `impl Drop for OwnedRef`: `state.reading_count -= 1` on the shared store. -/
def OwnedRef.drop {α : Type} (_g : OwnedRef α) (c : OwnedRefCell α) : OwnedRefCell α :=
  { c with state := { c.state with reading_count := c.state.reading_count - 1 } }

/-- `impl Drop for OwnedRefMut`: `state.is_writing = false` on the shared store. -/
def OwnedRefMut.drop {α : Type} (_g : OwnedRefMut α) (c : OwnedRefCell α) : OwnedRefCell α :=
  { c with state := { c.state with is_writing := false } }

/-!
Trace model of the fuzz harness (`fuzz_targets/fuzz_basic_borrows.rs`): a
single cell driven by an arbitrary sequence of operations from
`{try_borrow, try_borrow_mut, release-oldest-held-read, release-oldest-held-write}`.
The harness keeps vectors of held guards and only pops (drops) a guard when
one is held; the model tracks the vector lengths as `live_reads` /
`live_writes`.
-/

/-- One fuzz-harness operation on the cell. -/
inductive Op : Type
  | tryBorrow
  | tryBorrowMut
  | dropRead
  | dropWrite
  deriving DecidableEq, Repr

/-- Harness state: the cell store plus the number of held read / write guards. -/
structure Sys (α : Type) where
  cell : OwnedRefCell α
  live_reads : Nat
  live_writes : Nat
  deriving DecidableEq, Repr

/-- One harness step. Acquisitions push the issued guard (if any); a release
pops a held guard and runs its `Drop` impl, and is a no-op when no guard of
that kind is held (the harness pops only from a non-empty vector). -/
def Sys.step {α : Type} (s : Sys α) : Op → Sys α
  | Op.tryBorrow =>
    match s.cell.try_borrow with
    | (some _, c2) => { s with cell := c2, live_reads := s.live_reads + 1 }
    | (none, c2) => { s with cell := c2 }
  | Op.tryBorrowMut =>
    match s.cell.try_borrow_mut with
    | (some _, c2) => { s with cell := c2, live_writes := s.live_writes + 1 }
    | (none, c2) => { s with cell := c2 }
  | Op.dropRead =>
    if 0 < s.live_reads then
      { s with cell := OwnedRef.drop ⟨⟩ s.cell, live_reads := s.live_reads - 1 }
    else s
  | Op.dropWrite =>
    if 0 < s.live_writes then
      { s with cell := OwnedRefMut.drop ⟨⟩ s.cell, live_writes := s.live_writes - 1 }
    else s

/-- Harness start state: a fresh cell, no guards held. -/
def Sys.init {α : Type} (v : α) : Sys α :=
  ⟨OwnedRefCell.new v, 0, 0⟩

/-- Run the harness from the start state through a sequence of operations. -/
def Sys.run {α : Type} (v : α) (ops : List Op) : Sys α :=
  ops.foldl Sys.step (Sys.init v)

/-- The system invariant tying the `BorrowState` bookkeeping to the held
guards: `reading_count` counts exactly the live read guards, `is_writing`
is set exactly when a write guard is live, at most one write guard is ever
live, and a live write guard excludes live read guards. -/
def Sys.Inv {α : Type} (s : Sys α) : Prop :=
  s.cell.state.reading_count = s.live_reads
  ∧ (s.cell.state.is_writing = true ↔ 0 < s.live_writes)
  ∧ s.live_writes ≤ 1
  ∧ (0 < s.live_writes → s.live_reads = 0)

lemma OwnedRefCell.try_borrow_writing {α : Type} (c : OwnedRefCell α)
    (h : c.state.is_writing = true) : c.try_borrow = (none, c) := by
  simp [OwnedRefCell.try_borrow, h]

lemma OwnedRefCell.try_borrow_not_writing {α : Type} (c : OwnedRefCell α)
    (h : c.state.is_writing = false) :
    c.try_borrow =
      (some ⟨⟩, { c with state := { c.state with reading_count := c.state.reading_count + 1 } }) := by
  simp [OwnedRefCell.try_borrow, h]

lemma OwnedRefCell.try_borrow_mut_blocked {α : Type} (c : OwnedRefCell α)
    (h : c.state.is_writing = true ∨ 0 < c.state.reading_count) :
    c.try_borrow_mut = (none, c) := by
  rcases h with h | h <;> simp [OwnedRefCell.try_borrow_mut, h]

lemma OwnedRefCell.try_borrow_mut_free {α : Type} (c : OwnedRefCell α)
    (hw : c.state.is_writing = false) (hr : c.state.reading_count = 0) :
    c.try_borrow_mut = (some ⟨⟩, { c with state := { c.state with is_writing := true } }) := by
  simp [OwnedRefCell.try_borrow_mut, hw, hr]

lemma Sys.inv_init {α : Type} (v : α) : Sys.Inv (Sys.init v) := by
  refine ⟨rfl, by simp [Sys.init, OwnedRefCell.new], by simp [Sys.init], by simp [Sys.init]⟩

lemma Sys.inv_step {α : Type} (s : Sys α) (op : Op) (h : Sys.Inv s) : Sys.Inv (s.step op) := by
  obtain ⟨h1, h2, h3, h4⟩ := h
  have hwlw : s.cell.state.is_writing = false → s.live_writes = 0 := by
    intro hw
    rcases Nat.eq_zero_or_pos s.live_writes with h0 | hpos
    · exact h0
    · exact absurd (h2.mpr hpos) (by simp [hw])
  cases op with
  | tryBorrow =>
    cases hw : s.cell.state.is_writing with
    | false =>
      have hlw : s.live_writes = 0 := hwlw hw
      simp only [Sys.step, OwnedRefCell.try_borrow_not_writing s.cell hw]
      refine ⟨?_, ?_, ?_, ?_⟩ <;> dsimp only
      · omega
      · simp [hw, hlw]
      · exact h3
      · intro hc; omega
    | true =>
      simp only [Sys.step, OwnedRefCell.try_borrow_writing s.cell hw]
      exact ⟨h1, h2, h3, h4⟩
  | tryBorrowMut =>
    cases hw : s.cell.state.is_writing with
    | true =>
      simp only [Sys.step, OwnedRefCell.try_borrow_mut_blocked s.cell (Or.inl hw)]
      exact ⟨h1, h2, h3, h4⟩
    | false =>
      rcases Nat.eq_zero_or_pos s.cell.state.reading_count with hr | hr
      · have hlw : s.live_writes = 0 := hwlw hw
        simp only [Sys.step, OwnedRefCell.try_borrow_mut_free s.cell hw hr]
        refine ⟨?_, ?_, ?_, ?_⟩ <;> dsimp only
        · exact h1
        · simp
        · omega
        · intro hc; omega
      · simp only [Sys.step, OwnedRefCell.try_borrow_mut_blocked s.cell (Or.inr hr)]
        exact ⟨h1, h2, h3, h4⟩
  | dropRead =>
    by_cases hlr : 0 < s.live_reads
    · have hlw : s.live_writes = 0 := by
        rcases Nat.eq_zero_or_pos s.live_writes with h0 | hpos
        · exact h0
        · have := h4 hpos; omega
      simp only [Sys.step, if_pos hlr, OwnedRef.drop]
      refine ⟨?_, ?_, ?_, ?_⟩ <;> dsimp only
      · omega
      · exact h2
      · exact h3
      · intro hc; omega
    · simp only [Sys.step, if_neg hlr]
      exact ⟨h1, h2, h3, h4⟩
  | dropWrite =>
    by_cases hlw : 0 < s.live_writes
    · simp only [Sys.step, if_pos hlw, OwnedRefMut.drop]
      refine ⟨?_, ?_, ?_, ?_⟩ <;> dsimp only
      · exact h1
      · constructor
        · intro hc; exact absurd hc Bool.false_ne_true
        · intro hc; exact absurd hc (by omega)
      · omega
      · intro hc; exact absurd hc (by omega)
    · simp only [Sys.step, if_neg hlw]
      exact ⟨h1, h2, h3, h4⟩

lemma Sys.inv_foldl {α : Type} (ops : List Op) (s : Sys α) (h : Sys.Inv s) :
    Sys.Inv (ops.foldl Sys.step s) := by
  induction ops generalizing s with
  | nil => exact h
  | cons op rest ih => exact ih _ (Sys.inv_step s op h)

lemma Sys.inv_run {α : Type} (v : α) (ops : List Op) : Sys.Inv (Sys.run v ops) :=
  Sys.inv_foldl ops _ (Sys.inv_init v)

lemma OwnedRefCell.borrow_writing {α : Type} (c : OwnedRefCell α)
    (h : c.state.is_writing = true) :
    c.borrow = Except.error "Failed to borrow: already mutably borrowed" := by
  simp [OwnedRefCell.borrow, OwnedRefCell.try_borrow_writing c h]

lemma OwnedRefCell.borrow_not_writing {α : Type} (c : OwnedRefCell α)
    (h : c.state.is_writing = false) :
    c.borrow = Except.ok
      (⟨⟩, { c with state := { c.state with reading_count := c.state.reading_count + 1 } }) := by
  simp [OwnedRefCell.borrow, OwnedRefCell.try_borrow_not_writing c h]

lemma OwnedRefCell.borrow_mut_blocked {α : Type} (c : OwnedRefCell α)
    (h : c.state.is_writing = true ∨ 0 < c.state.reading_count) :
    c.borrow_mut = Except.error "Failed to borrow mutably: already borrowed" := by
  simp [OwnedRefCell.borrow_mut, OwnedRefCell.try_borrow_mut_blocked c h]

lemma OwnedRefCell.borrow_mut_free {α : Type} (c : OwnedRefCell α)
    (hw : c.state.is_writing = false) (hr : c.state.reading_count = 0) :
    c.borrow_mut = Except.ok
      (⟨⟩, { c with state := { c.state with is_writing := true } }) := by
  simp [OwnedRefCell.borrow_mut, OwnedRefCell.try_borrow_mut_free c hw hr]

/-- C1: every state of the borrow bookkeeping reachable from the initial
state `{writing = false, reading_count = 0}` by any finite sequence of
`try_borrow`, `try_borrow_mut` and guard drops satisfies the invariant
`¬(writing ∧ reading_count > 0)`, and `reading_count` is a `Nat`, hence
non-negative. -/
theorem C1_reachable_invariant {α : Type} (v : α) (ops : List Op) :
    (((Sys.run v ops).cell.state.is_writing
        && decide (0 < (Sys.run v ops).cell.state.reading_count)) = false)
    ∧ 0 ≤ (Sys.run v ops).cell.state.reading_count := by
  obtain ⟨h1, h2, h3, h4⟩ := Sys.inv_run v ops
  constructor
  · cases hw : (Sys.run v ops).cell.state.is_writing with
    | false => simp
    | true =>
      have hlr := h4 (h2.mp hw)
      simp [hw, h1, hlr]
  · exact Nat.zero_le _

/-- C2: `try_borrow` succeeds iff `writing = false`; on success it
increments `reading_count` by exactly one and the returned guard
dereferences to the cell`s protected value; on failure it returns `none`
and leaves the whole cell (value and `BorrowState`) unchanged. -/
theorem C2_try_borrow_contract {α : Type} (c : OwnedRefCell α) :
    ((c.try_borrow).fst.isSome = true ↔ c.state.is_writing = false)
    ∧ (c.state.is_writing = false →
        (c.try_borrow).snd.state.reading_count = c.state.reading_count + 1
        ∧ (c.try_borrow).snd.value = c.value
        ∧ ∀ g : OwnedRef α, (c.try_borrow).fst = some g →
            OwnedRef.deref g (c.try_borrow).snd = (c.try_borrow).snd.value)
    ∧ (c.state.is_writing = true → c.try_borrow = (none, c)) := by
  refine ⟨?_, ?_, ?_⟩
  · cases hw : c.state.is_writing with
    | false => simp [OwnedRefCell.try_borrow_not_writing c hw]
    | true => simp [OwnedRefCell.try_borrow_writing c hw]
  · intro hw
    simp [OwnedRefCell.try_borrow_not_writing c hw, OwnedRef.deref]
  · intro hw
    exact OwnedRefCell.try_borrow_writing c hw

/-- Witness for C2 at concrete cells: a fresh cell with value 10 (success
path) and a write-locked cell (failure path). -/
theorem C2_try_borrow_contract_witness :
    ((OwnedRefCell.new (10 : Nat)).try_borrow).snd.state.reading_count = 0 + 1
    ∧ (⟨10, ⟨true, 0⟩⟩ : OwnedRefCell Nat).try_borrow = (none, ⟨10, ⟨true, 0⟩⟩) :=
  ⟨((C2_try_borrow_contract (OwnedRefCell.new 10)).2.1 rfl).1,
   (C2_try_borrow_contract (⟨10, ⟨true, 0⟩⟩ : OwnedRefCell Nat)).2.2 rfl⟩

/-- C3: `try_borrow_mut` succeeds iff `writing = false` and
`reading_count = 0`; on success it sets `writing = true`; on failure it
returns `none` with the cell unchanged; and while the write claim is held
both `try_borrow` and `try_borrow_mut` return `none`. -/
theorem C3_try_borrow_mut_contract {α : Type} (c : OwnedRefCell α) :
    ((c.try_borrow_mut).fst.isSome = true ↔
        (c.state.is_writing = false ∧ c.state.reading_count = 0))
    ∧ (c.state.is_writing = false → c.state.reading_count = 0 →
        (c.try_borrow_mut).snd.state.is_writing = true)
    ∧ ((c.state.is_writing = true ∨ 0 < c.state.reading_count) → c.try_borrow_mut = (none, c))
    ∧ (c.state.is_writing = true →
        (c.try_borrow).fst = none ∧ (c.try_borrow_mut).fst = none) := by
  refine ⟨?_, ?_, ?_, ?_⟩
  · cases hw : c.state.is_writing with
    | true => simp [OwnedRefCell.try_borrow_mut_blocked c (Or.inl hw)]
    | false =>
      rcases Nat.eq_zero_or_pos c.state.reading_count with hr | hr
      · simp [OwnedRefCell.try_borrow_mut_free c hw hr, hr]
      · simp [OwnedRefCell.try_borrow_mut_blocked c (Or.inr hr)]
        omega
  · intro hw hr
    simp [OwnedRefCell.try_borrow_mut_free c hw hr]
  · intro h
    exact OwnedRefCell.try_borrow_mut_blocked c h
  · intro hw
    constructor
    · simp [OwnedRefCell.try_borrow_writing c hw]
    · simp [OwnedRefCell.try_borrow_mut_blocked c (Or.inl hw)]

/-- Witness for C3 at concrete cells: a fresh cell (success path), a cell
with two outstanding reads (blocked path), and a write-locked cell (mutual
exclusion of both acquisitions). -/
theorem C3_try_borrow_mut_contract_witness :
    ((OwnedRefCell.new (10 : Nat)).try_borrow_mut).snd.state.is_writing = true
    ∧ (⟨10, ⟨false, 2⟩⟩ : OwnedRefCell Nat).try_borrow_mut = (none, ⟨10, ⟨false, 2⟩⟩)
    ∧ ((⟨10, ⟨true, 0⟩⟩ : OwnedRefCell Nat).try_borrow).fst = none :=
  ⟨(C3_try_borrow_mut_contract (OwnedRefCell.new 10)).2.1 rfl rfl,
   (C3_try_borrow_mut_contract (⟨10, ⟨false, 2⟩⟩ : OwnedRefCell Nat)).2.2.1
     (Or.inr (by decide)),
   ((C3_try_borrow_mut_contract (⟨10, ⟨true, 0⟩⟩ : OwnedRefCell Nat)).2.2.2 rfl).1⟩

/-- C4: `borrow` / `borrow_mut` agree with `try_borrow` / `try_borrow_mut`
on success, and raise the fatal conditions (panic messages mentioning
"already mutably borrowed" and "already borrowed" respectively) exactly
when the corresponding `try` operation returns `none`. -/
theorem C4_panicking_variants {α : Type} (c : OwnedRefCell α) :
    (∀ (g : OwnedRef α) (c2 : OwnedRefCell α),
        c.try_borrow = (some g, c2) ↔ c.borrow = Except.ok (g, c2))
    ∧ ((c.try_borrow).fst = none ↔
        c.borrow = Except.error "Failed to borrow: already mutably borrowed")
    ∧ (∀ (g : OwnedRefMut α) (c2 : OwnedRefCell α),
        c.try_borrow_mut = (some g, c2) ↔ c.borrow_mut = Except.ok (g, c2))
    ∧ ((c.try_borrow_mut).fst = none ↔
        c.borrow_mut = Except.error "Failed to borrow mutably: already borrowed") := by
  refine ⟨?_, ?_, ?_, ?_⟩
  · intro g c2
    cases g
    cases hw : c.state.is_writing with
    | true =>
      rw [OwnedRefCell.try_borrow_writing c hw, OwnedRefCell.borrow_writing c hw]
      simp
    | false =>
      rw [OwnedRefCell.try_borrow_not_writing c hw, OwnedRefCell.borrow_not_writing c hw]
      simp
  · cases hw : c.state.is_writing with
    | true =>
      rw [OwnedRefCell.try_borrow_writing c hw, OwnedRefCell.borrow_writing c hw]
      simp
    | false =>
      rw [OwnedRefCell.try_borrow_not_writing c hw, OwnedRefCell.borrow_not_writing c hw]
      simp
  · intro g c2
    cases g
    cases hw : c.state.is_writing with
    | true =>
      rw [OwnedRefCell.try_borrow_mut_blocked c (Or.inl hw),
        OwnedRefCell.borrow_mut_blocked c (Or.inl hw)]
      simp
    | false =>
      rcases Nat.eq_zero_or_pos c.state.reading_count with hr | hr
      · rw [OwnedRefCell.try_borrow_mut_free c hw hr, OwnedRefCell.borrow_mut_free c hw hr]
        simp
      · rw [OwnedRefCell.try_borrow_mut_blocked c (Or.inr hr),
          OwnedRefCell.borrow_mut_blocked c (Or.inr hr)]
        simp
  · cases hw : c.state.is_writing with
    | true =>
      rw [OwnedRefCell.try_borrow_mut_blocked c (Or.inl hw),
        OwnedRefCell.borrow_mut_blocked c (Or.inl hw)]
      simp
    | false =>
      rcases Nat.eq_zero_or_pos c.state.reading_count with hr | hr
      · rw [OwnedRefCell.try_borrow_mut_free c hw hr, OwnedRefCell.borrow_mut_free c hw hr]
        simp
      · rw [OwnedRefCell.try_borrow_mut_blocked c (Or.inr hr),
          OwnedRefCell.borrow_mut_blocked c (Or.inr hr)]
        simp

/-- Witness for C4 at concrete cells: the success path of `borrow` on a
fresh cell and the fatal path of `borrow` / `borrow_mut` on locked cells. -/
theorem C4_panicking_variants_witness :
    (OwnedRefCell.new (10 : Nat)).borrow = Except.ok (⟨⟩, ⟨10, ⟨false, 1⟩⟩)
    ∧ (⟨10, ⟨true, 0⟩⟩ : OwnedRefCell Nat).borrow
        = Except.error "Failed to borrow: already mutably borrowed"
    ∧ (⟨10, ⟨false, 1⟩⟩ : OwnedRefCell Nat).borrow_mut
        = Except.error "Failed to borrow mutably: already borrowed" :=
  ⟨((C4_panicking_variants (OwnedRefCell.new 10)).1 ⟨⟩ ⟨10, ⟨false, 1⟩⟩).mp (by decide),
   ((C4_panicking_variants (⟨10, ⟨true, 0⟩⟩ : OwnedRefCell Nat)).2.1).mp (by decide),
   ((C4_panicking_variants (⟨10, ⟨false, 1⟩⟩ : OwnedRefCell Nat)).2.2.2).mp (by decide)⟩

/-- Drop `n` held read guards, one harness step at a time. -/
def Sys.dropAllReads {α : Type} : Sys α → Nat → Sys α
  | s, 0 => s
  | s, Nat.succ n => Sys.dropAllReads (s.step Op.dropRead) n

/-- Release every held guard: first all held read guards, then the write
guard when one is held. -/
def Sys.releaseAll {α : Type} (s : Sys α) : Sys α :=
  let s2 := Sys.dropAllReads s s.live_reads
  if 0 < s2.live_writes then s2.step Op.dropWrite else s2

lemma Sys.dropAllReads_spec {α : Type} (n : Nat) (s : Sys α) (h : Sys.Inv s)
    (hn : s.live_reads = n) :
    Sys.Inv (Sys.dropAllReads s n)
    ∧ (Sys.dropAllReads s n).live_reads = 0
    ∧ (Sys.dropAllReads s n).live_writes = s.live_writes
    ∧ (Sys.dropAllReads s n).cell.value = s.cell.value := by
  induction n generalizing s with
  | zero => exact ⟨h, hn, rfl, rfl⟩
  | succ n ih =>
    have hlr : 0 < s.live_reads := by omega
    have hstep : s.step Op.dropRead =
        { s with cell := OwnedRef.drop ⟨⟩ s.cell, live_reads := s.live_reads - 1 } := by
      simp [Sys.step, if_pos hlr]
    have hinv2 := Sys.inv_step s Op.dropRead h
    have hn2 : (s.step Op.dropRead).live_reads = n := by
      rw [hstep]; dsimp only; omega
    obtain ⟨i1, i2, i3, i4⟩ := ih (s.step Op.dropRead) hinv2 hn2
    refine ⟨?_, ?_, ?_, ?_⟩
    · simpa only [Sys.dropAllReads] using i1
    · simpa only [Sys.dropAllReads] using i2
    · rw [Sys.dropAllReads, i3, hstep]
    · rw [Sys.dropAllReads, i4, hstep]
      rfl

lemma Sys.releaseAll_spec {α : Type} (s : Sys α) (h : Sys.Inv s) :
    (Sys.releaseAll s).cell.state = ⟨false, 0⟩
    ∧ (Sys.releaseAll s).cell.value = s.cell.value := by
  obtain ⟨hinv2, hlr2, hlw2, hval2⟩ := Sys.dropAllReads_spec s.live_reads s h rfl
  obtain ⟨g1, g2, g3, g4⟩ := hinv2
  have hrc2 : (Sys.dropAllReads s s.live_reads).cell.state.reading_count = 0 := by
    rw [g1, hlr2]
  simp only [Sys.releaseAll]
  by_cases hlw : 0 < (Sys.dropAllReads s s.live_reads).live_writes
  · simp only [if_pos hlw, Sys.step, OwnedRefMut.drop]
    constructor
    · dsimp only
      rw [hrc2]
    · exact hval2
  · simp only [if_neg hlw]
    have hwf : (Sys.dropAllReads s s.live_reads).cell.state.is_writing = false := by
      cases hb : (Sys.dropAllReads s s.live_reads).cell.state.is_writing with
      | false => rfl
      | true => exact absurd (g2.mp hb) hlw
    constructor
    · have hbs : (Sys.dropAllReads s s.live_reads).cell.state =
          ⟨(Sys.dropAllReads s s.live_reads).cell.state.is_writing,
            (Sys.dropAllReads s s.live_reads).cell.state.reading_count⟩ := rfl
      rw [hbs, hwf, hrc2]
    · exact hval2

/-- C5: dropping a guard exactly inverts its acquisition on the shared
store (dropping the read guard issued by a successful `try_borrow` restores
the original cell, and likewise for the write guard), and from every
reachable harness state, releasing all held guards returns the
`BorrowState` to `{writing = false, reading_count = 0}`, after which
`try_borrow_mut` succeeds. -/
theorem C5_release_inverts {α : Type} :
    (∀ c : OwnedRefCell α, c.state.is_writing = false →
        OwnedRef.drop ⟨⟩ (c.try_borrow).snd = c)
    ∧ (∀ c : OwnedRefCell α, c.state.is_writing = false → c.state.reading_count = 0 →
        OwnedRefMut.drop ⟨⟩ (c.try_borrow_mut).snd = c)
    ∧ (∀ (v : α) (ops : List Op),
        (Sys.releaseAll (Sys.run v ops)).cell.state = ⟨false, 0⟩
        ∧ ((Sys.releaseAll (Sys.run v ops)).cell.try_borrow_mut).fst.isSome = true) := by
  refine ⟨?_, ?_, ?_⟩
  · intro c hw
    rcases c with ⟨u, ⟨w, r⟩⟩
    dsimp only at hw
    subst hw
    simp [OwnedRefCell.try_borrow, OwnedRef.drop]
  · intro c hw hr
    rcases c with ⟨u, ⟨w, r⟩⟩
    dsimp only at hw hr
    subst hw
    subst hr
    simp [OwnedRefCell.try_borrow_mut, OwnedRefMut.drop]
  · intro v ops
    obtain ⟨hst, _⟩ := Sys.releaseAll_spec (Sys.run v ops) (Sys.inv_run v ops)
    refine ⟨hst, ?_⟩
    have hw : (Sys.releaseAll (Sys.run v ops)).cell.state.is_writing = false := by
      rw [hst]
    have hr : (Sys.releaseAll (Sys.run v ops)).cell.state.reading_count = 0 := by
      rw [hst]
    rw [OwnedRefCell.try_borrow_mut_free _ hw hr]
    rfl

/-- Witness for C5 at concrete inputs: a fresh cell with value 10 and the
harness run `[tryBorrow, tryBorrowMut]`. -/
theorem C5_release_inverts_witness :
    OwnedRef.drop ⟨⟩ (((OwnedRefCell.new (10 : Nat)).try_borrow).snd) = OwnedRefCell.new 10
    ∧ OwnedRefMut.drop ⟨⟩ (((OwnedRefCell.new (10 : Nat)).try_borrow_mut).snd)
        = OwnedRefCell.new 10
    ∧ (Sys.releaseAll (Sys.run (10 : Nat) [Op.tryBorrow, Op.tryBorrowMut])).cell.state
        = ⟨false, 0⟩ :=
  ⟨C5_release_inverts.1 (OwnedRefCell.new 10) rfl,
   C5_release_inverts.2.1 (OwnedRefCell.new 10) rfl rfl,
   (C5_release_inverts.2.2 10 [Op.tryBorrow, Op.tryBorrowMut]).1⟩

/-- C6: writing `v` through the write guard`s mutable dereference, dropping
the guard, then acquiring a read guard observes exactly `v` through the
read guard`s dereference. -/
theorem C6_write_read_round_trip {α : Type} (c : OwnedRefCell α) (v : α)
    (hw : c.state.is_writing = false) (hr : c.state.reading_count = 0) :
    ((c.try_borrow_mut).fst.isSome = true)
    ∧ (((OwnedRefMut.drop ⟨⟩
          (OwnedRefMut.deref_mut ⟨⟩ (c.try_borrow_mut).snd v)).try_borrow).fst.isSome = true)
    ∧ (∀ g : OwnedRef α,
        OwnedRef.deref g
          (((OwnedRefMut.drop ⟨⟩
              (OwnedRefMut.deref_mut ⟨⟩ (c.try_borrow_mut).snd v)).try_borrow).snd) = v) := by
  rcases c with ⟨u, ⟨w, r⟩⟩
  dsimp only at hw hr
  subst hw
  subst hr
  refine ⟨?_, ?_, ?_⟩ <;>
    simp [OwnedRefCell.try_borrow_mut, OwnedRefCell.try_borrow, OwnedRefMut.deref_mut,
      OwnedRefMut.drop, OwnedRef.deref]

/-- Witness for C6: `Cell::new(10)`, set to 20 through the write guard,
drop it, read back 20. -/
theorem C6_write_read_round_trip_witness :
    OwnedRef.deref ⟨⟩
      (((OwnedRefMut.drop ⟨⟩
          (OwnedRefMut.deref_mut ⟨⟩ ((OwnedRefCell.new (10 : Nat)).try_borrow_mut).snd
            20)).try_borrow).snd) = 20 :=
  (C6_write_read_round_trip (OwnedRefCell.new 10) 20 rfl rfl).2.2 ⟨⟩

/-- C7: the bookkeeping is exactly-once: in every reachable harness state,
`reading_count` equals the number of live read guards and `is_writing`
holds exactly when the write guard is live, and releasing a held read
guard decrements `reading_count` by exactly one (never below zero) while
releasing the held write guard clears `is_writing` without touching
`reading_count`. -/
theorem C7_exactly_once_release {α : Type} (v : α) (ops : List Op) :
    (Sys.run v ops).cell.state.reading_count = (Sys.run v ops).live_reads
    ∧ ((Sys.run v ops).cell.state.is_writing = true ↔ 0 < (Sys.run v ops).live_writes)
    ∧ (0 < (Sys.run v ops).live_reads →
        ((Sys.run v ops).step Op.dropRead).cell.state.reading_count + 1
          = (Sys.run v ops).cell.state.reading_count)
    ∧ (0 < (Sys.run v ops).live_writes →
        (((Sys.run v ops).step Op.dropWrite).cell.state.is_writing = false
          ∧ ((Sys.run v ops).step Op.dropWrite).cell.state.reading_count
              = (Sys.run v ops).cell.state.reading_count)) := by
  obtain ⟨h1, h2, h3, h4⟩ := Sys.inv_run v ops
  refine ⟨h1, h2, ?_, ?_⟩
  · intro hlr
    have hstep : (Sys.run v ops).step Op.dropRead =
        ⟨OwnedRef.drop ⟨⟩ (Sys.run v ops).cell, (Sys.run v ops).live_reads - 1,
          (Sys.run v ops).live_writes⟩ := by
      simp [Sys.step, if_pos hlr]
    rw [hstep]
    show (Sys.run v ops).cell.state.reading_count - 1 + 1
      = (Sys.run v ops).cell.state.reading_count
    omega
  · intro hlw
    have hstep : (Sys.run v ops).step Op.dropWrite =
        ⟨OwnedRefMut.drop ⟨⟩ (Sys.run v ops).cell, (Sys.run v ops).live_reads,
          (Sys.run v ops).live_writes - 1⟩ := by
      simp [Sys.step, if_pos hlw]
    rw [hstep]
    exact ⟨rfl, rfl⟩

/-- Witness for C7: a run holding one read guard and a run holding the
write guard, each then released. -/
theorem C7_exactly_once_release_witness :
    ((Sys.run (0 : Nat) [Op.tryBorrow]).step Op.dropRead).cell.state.reading_count + 1
      = (Sys.run (0 : Nat) [Op.tryBorrow]).cell.state.reading_count
    ∧ ((Sys.run (0 : Nat) [Op.tryBorrowMut]).step Op.dropWrite).cell.state.is_writing
        = false :=
  ⟨(C7_exactly_once_release 0 [Op.tryBorrow]).2.2.1 (by decide),
   ((C7_exactly_once_release 0 [Op.tryBorrowMut]).2.2.2 (by decide)).1⟩

/-- The cell after `n` consecutive `try_borrow` calls, each call applied to
the store left by the previous one. -/
def OwnedRefCell.borrowN {α : Type} (c : OwnedRefCell α) : Nat → OwnedRefCell α
  | 0 => c
  | Nat.succ n => ((c.borrowN n).try_borrow).snd

/-- The cell after dropping `n` read guards. -/
def OwnedRefCell.dropReads {α : Type} (c : OwnedRefCell α) : Nat → OwnedRefCell α
  | 0 => c
  | Nat.succ n => OwnedRef.drop ⟨⟩ (c.dropReads n)

lemma OwnedRefCell.borrowN_eq {α : Type} (c : OwnedRefCell α)
    (hw : c.state.is_writing = false) (n : Nat) :
    c.borrowN n =
      { c with state := { c.state with reading_count := c.state.reading_count + n } } := by
  induction n with
  | zero => simp [OwnedRefCell.borrowN]
  | succ n ih =>
    have hw2 : (({ c with state :=
        { c.state with reading_count := c.state.reading_count + n } } :
          OwnedRefCell α)).state.is_writing = false := hw
    simp only [OwnedRefCell.borrowN, ih, OwnedRefCell.try_borrow_not_writing _ hw2]
    simp [Nat.add_assoc]

lemma OwnedRefCell.dropReads_eq {α : Type} (c : OwnedRefCell α) (n : Nat) :
    c.dropReads n =
      { c with state := { c.state with reading_count := c.state.reading_count - n } } := by
  induction n with
  | zero => simp [OwnedRefCell.dropReads]
  | succ n ih =>
    simp only [OwnedRefCell.dropReads, ih, OwnedRef.drop]
    simp
    omega

/-- C8: starting from any state with `writing = false`, every one of `n`
consecutive `try_borrow` calls succeeds, every read guard dereferences to
the identical current value, `try_borrow_mut` returns `none` while any
read guard is outstanding, and dropping all `n` guards restores the
original cell, after which (when no other read claim was outstanding)
`try_borrow_mut` succeeds. -/
theorem C8_reader_concurrency {α : Type} (c : OwnedRefCell α) (n : Nat)
    (hw : c.state.is_writing = false) :
    (∀ k : Nat, ((c.borrowN k).try_borrow).fst.isSome = true)
    ∧ (∀ (k : Nat) (g : OwnedRef α), OwnedRef.deref g (c.borrowN k) = c.value)
    ∧ ((0 < n ∨ 0 < c.state.reading_count) → ((c.borrowN n).try_borrow_mut).fst = none)
    ∧ ((c.borrowN n).dropReads n = c)
    ∧ (c.state.reading_count = 0 →
        (((c.borrowN n).dropReads n).try_borrow_mut).fst.isSome = true) := by
  have hwk : ∀ k : Nat, (c.borrowN k).state.is_writing = false := by
    intro k
    rw [OwnedRefCell.borrowN_eq c hw k]
    exact hw
  have hrk : ∀ k : Nat, (c.borrowN k).state.reading_count = c.state.reading_count + k := by
    intro k
    rw [OwnedRefCell.borrowN_eq c hw k]
  have hback : (c.borrowN n).dropReads n = c := by
    rw [OwnedRefCell.borrowN_eq c hw n, OwnedRefCell.dropReads_eq]
    simp
  refine ⟨?_, ?_, ?_, hback, ?_⟩
  · intro k
    rw [OwnedRefCell.try_borrow_not_writing _ (hwk k)]
    rfl
  · intro k g
    rw [OwnedRef.deref, OwnedRefCell.borrowN_eq c hw k]
  · intro hpos
    have hp : 0 < (c.borrowN n).state.reading_count := by
      rw [hrk n]; omega
    rw [OwnedRefCell.try_borrow_mut_blocked _ (Or.inr hp)]
  · intro hr
    rw [hback, OwnedRefCell.try_borrow_mut_free c hw hr]
    rfl

/-- Witness for C8: a fresh cell with value 10 and two concurrent read
guards. -/
theorem C8_reader_concurrency_witness :
    (((OwnedRefCell.new (10 : Nat)).borrowN 2).try_borrow_mut).fst = none
    ∧ ((((OwnedRefCell.new (10 : Nat)).borrowN 2).dropReads 2).try_borrow_mut).fst.isSome
        = true
    ∧ OwnedRef.deref ⟨⟩ ((OwnedRefCell.new (10 : Nat)).borrowN 2) = 10 :=
  ⟨(C8_reader_concurrency (OwnedRefCell.new 10) 2 rfl).2.2.1 (Or.inl (by decide)),
   (C8_reader_concurrency (OwnedRefCell.new 10) 2 rfl).2.2.2.2 rfl,
   (C8_reader_concurrency (OwnedRefCell.new 10) 2 rfl).2.1 2 ⟨⟩⟩

/-- C9: no acquisition (successful or failing) and no guard drop ever
modifies the protected value; in particular acquiring and dropping a write
guard without writing leaves a subsequent read guard observing the value
unchanged. -/
theorem C9_value_frame {α : Type} (c : OwnedRefCell α) :
    ((c.try_borrow).snd.value = c.value)
    ∧ ((c.try_borrow_mut).snd.value = c.value)
    ∧ ((OwnedRef.drop ⟨⟩ c).value = c.value)
    ∧ ((OwnedRefMut.drop ⟨⟩ c).value = c.value)
    ∧ (∀ (g : OwnedRef α) (c2 : OwnedRefCell α),
        c.borrow = Except.ok (g, c2) → c2.value = c.value)
    ∧ (∀ (g : OwnedRefMut α) (c2 : OwnedRefCell α),
        c.borrow_mut = Except.ok (g, c2) → c2.value = c.value)
    ∧ (c.state.is_writing = false → c.state.reading_count = 0 →
        ((OwnedRefMut.drop ⟨⟩ ((c.try_borrow_mut).snd)).try_borrow).fst.isSome = true
        ∧ ∀ g : OwnedRef α,
            OwnedRef.deref g
              (((OwnedRefMut.drop ⟨⟩ ((c.try_borrow_mut).snd)).try_borrow).snd)
              = c.value) := by
  refine ⟨?_, ?_, rfl, rfl, ?_, ?_, ?_⟩
  · cases hw : c.state.is_writing with
    | true => rw [OwnedRefCell.try_borrow_writing c hw]
    | false => rw [OwnedRefCell.try_borrow_not_writing c hw]
  · cases hw : c.state.is_writing with
    | true => rw [OwnedRefCell.try_borrow_mut_blocked c (Or.inl hw)]
    | false =>
      rcases Nat.eq_zero_or_pos c.state.reading_count with hr | hr
      · rw [OwnedRefCell.try_borrow_mut_free c hw hr]
      · rw [OwnedRefCell.try_borrow_mut_blocked c (Or.inr hr)]
  · intro g c2 hok
    cases hw : c.state.is_writing with
    | true =>
      rw [OwnedRefCell.borrow_writing c hw] at hok
      exact absurd hok (by simp)
    | false =>
      rw [OwnedRefCell.borrow_not_writing c hw] at hok
      injection hok with hok
      injection hok with hok1 hok2
      rw [← hok2]
  · intro g c2 hok
    cases hw : c.state.is_writing with
    | true =>
      rw [OwnedRefCell.borrow_mut_blocked c (Or.inl hw)] at hok
      exact absurd hok (by simp)
    | false =>
      rcases Nat.eq_zero_or_pos c.state.reading_count with hr | hr
      · rw [OwnedRefCell.borrow_mut_free c hw hr] at hok
        injection hok with hok
        injection hok with hok1 hok2
        rw [← hok2]
      · rw [OwnedRefCell.borrow_mut_blocked c (Or.inr hr)] at hok
        exact absurd hok (by simp)
  · intro hw hr
    rcases c with ⟨u, ⟨w, r⟩⟩
    dsimp only at hw hr
    subst hw
    subst hr
    refine ⟨?_, ?_⟩ <;>
      simp [OwnedRefCell.try_borrow_mut, OwnedRefCell.try_borrow, OwnedRefMut.drop,
        OwnedRef.deref]

/-- Witness for C9: a fresh cell with value 10; the `borrow` success path
and the acquire-then-drop-without-writing scenario. -/
theorem C9_value_frame_witness :
    (⟨10, ⟨false, 1⟩⟩ : OwnedRefCell Nat).value = (OwnedRefCell.new (10 : Nat)).value
    ∧ OwnedRef.deref ⟨⟩
        (((OwnedRefMut.drop ⟨⟩
            (((OwnedRefCell.new (10 : Nat)).try_borrow_mut).snd)).try_borrow).snd)
        = (OwnedRefCell.new (10 : Nat)).value :=
  ⟨(C9_value_frame (OwnedRefCell.new 10)).2.2.2.2.1 ⟨⟩ ⟨10, ⟨false, 1⟩⟩ rfl,
   ((C9_value_frame (OwnedRefCell.new 10)).2.2.2.2.2.2 rfl rfl).2 ⟨⟩⟩

/-- C10: each operation mutates only its own `BorrowState` field: a
`try_borrow` and a read guard drop leave `is_writing` unchanged, and a
`try_borrow_mut` and a write guard drop leave `reading_count` unchanged. -/
theorem C10_state_field_frame {α : Type} (c : OwnedRefCell α) :
    ((c.try_borrow).snd.state.is_writing = c.state.is_writing)
    ∧ ((OwnedRef.drop ⟨⟩ c).state.is_writing = c.state.is_writing)
    ∧ ((c.try_borrow_mut).snd.state.reading_count = c.state.reading_count)
    ∧ ((OwnedRefMut.drop ⟨⟩ c).state.reading_count = c.state.reading_count) := by
  refine ⟨?_, rfl, ?_, rfl⟩
  · cases hw : c.state.is_writing with
    | true =>
      rw [OwnedRefCell.try_borrow_writing c hw]
      exact hw
    | false =>
      rw [OwnedRefCell.try_borrow_not_writing c hw]
      exact hw
  · cases hw : c.state.is_writing with
    | true => rw [OwnedRefCell.try_borrow_mut_blocked c (Or.inl hw)]
    | false =>
      rcases Nat.eq_zero_or_pos c.state.reading_count with hr | hr
      · rw [OwnedRefCell.try_borrow_mut_free c hw hr]
      · rw [OwnedRefCell.try_borrow_mut_blocked c (Or.inr hr)]
